import Mathlib

/-!
Verification development for the aquarium-monitor polling program
(`PaulsReef_Sensors_py3.py`).  The definitions below are a shallow
embedding of the program's probe-protocol decoding (`AtlasI2C.read`),
command classification (`AtlasI2C.query`), polling cycle
(`read_sensors`) and alert evaluation (`notify`).  External effects
(the I2C bus, real sleeping, the database, SMTP) are represented by
explicit inputs: an environment mapping a device address and command to
the raw response frame, and explicit timestamps and gate state for the
alert evaluator.
-/

/-- Model of Python `x & ~0x80` on a non-negative integer: clear bit 7,
leaving every other bit unchanged. -/
def maskMSB (x : Nat) : Nat :=
  if Nat.testBit x 7 then x - 128 else x

/-- Embedding of `AtlasI2C.read` (python3 branch, lines 100-111): the
first byte of the frame is the status; status `1` masks the MSB of each
payload byte (`chr(x & ~0x80)`), joins to a string and truncates at the
first NUL (`result.split("\x00")[0]`); any other status yields the
string `"Error " + str(res[0])`. -/
def atlasRead (res : List Nat) : String :=
  match res with
  | [] => ""
  | status :: payload =>
    if status = 1 then
      let char_list := payload.map (fun x => Char.ofNat (maskMSB x))
      String.mk (char_list.takeWhile (fun c => c != Char.ofNat 0))
    else "Error " ++ toString status

/-- Modelled from the spec: the payload decoding as the spec words it —
each payload byte masked with bit 7 cleared (`x & 0x7F`), interpreted
as ASCII text, truncated at the first null byte.  Compared against the
success branch of `atlasRead` (refinement check for the decode claim). -/
def specDecodePayload (payload : List Nat) : String :=
  String.mk ((payload.map (fun x => Char.ofNat (Nat.land x 0x7F))).takeWhile
    (fun c => c != Char.ofNat 0))

/-- `AtlasI2C.long_timeout` (1.5 time-units). -/
def long_timeout : ℚ := 3 / 2

/-- `AtlasI2C.short_timeout` (0.5 time-units). -/
def short_timeout : ℚ := 1 / 2

/-- Python `s.upper()` on Lean strings. -/
def strUpper (s : String) : String := String.mk (s.data.map Char.toUpper)

/-- Python `s.startswith(p)` on Lean strings. -/
def strStarts (s p : String) : Bool := p.data.isPrefixOf s.data

/-- Outcome of `AtlasI2C.query`: either the sleep sentinel (the call
returns `"sleep mode"` at once, no read happens), or a read reply after
waiting `delay`. -/
inductive QueryOutcome
  | sleep : QueryOutcome
  | reply : ℚ → String → QueryOutcome
deriving DecidableEq

/-- Embedding of `AtlasI2C.query` (lines 113-125): the command is
written, then classified on its uppercased form; `R`/`CAL` commands
wait `long_timeout` and read, `SLEEP` commands return the sentinel
immediately without reading, every other command waits `short_timeout`
and reads.  `frame` is the raw frame the device would return to the
read. -/
def atlasQuery (cmd : String) (frame : List Nat) : QueryOutcome :=
  if strStarts (strUpper cmd) "R" || strStarts (strUpper cmd) "CAL" then
    QueryOutcome.reply long_timeout (atlasRead frame)
  else if strStarts (strUpper cmd) "SLEEP" then
    QueryOutcome.sleep
  else
    QueryOutcome.reply short_timeout (atlasRead frame)

/-- Numeric value of a digit string (most significant first). -/
def digitsVal (l : List Char) : Nat :=
  l.foldl (fun a c => 10 * a + (c.toNat - 48)) 0

/-- Helper for `parseFloat`: parse an unsigned decimal numeral
`digits [. digits]` (at least one digit overall). -/
def parseUnsigned (l : List Char) : Option ℚ :=
  let intPart := l.takeWhile Char.isDigit
  let rest := l.drop intPart.length
  if rest = [] then
    if intPart = [] then none else some (digitsVal intPart)
  else if rest.head? = some '.' then
    let fr := rest.tail
    if fr.all Char.isDigit && (!intPart.isEmpty || !fr.isEmpty) then
      some ((digitsVal intPart : ℚ) + (digitsVal fr : ℚ) / (10 : ℚ) ^ fr.length)
    else none
  else none

/-- Model of Python `float(s)` on the decimal-numeral strings the
protocol produces: optional sign, then digits with an optional
fractional part.  Any other string (in particular `"Error <n>"`) raises
`ValueError`, modelled as `none`. -/
def parseFloat (s : String) : Option ℚ :=
  match s.data with
  | [] => none
  | c :: rest =>
    if c = '+' then parseUnsigned rest
    else if c = '-' then (parseUnsigned rest).map Neg.neg
    else parseUnsigned (c :: rest)

/-- Nearest integer, ties to even — the rounding of Python `round`. -/
def roundHalfEven (q : ℚ) : ℤ :=
  let f : ℤ := ⌊q⌋
  let r : ℚ := q - (f : ℚ)
  if r < 1 / 2 then f
  else if 1 / 2 < r then f + 1
  else if f % 2 = 0 then f else f + 1

/-- Model of Python `round(x, d)`: round to `d` decimal digits, ties to
even. -/
def pyRound (q : ℚ) (d : Nat) : ℚ :=
  ((roundHalfEven (q * (10 : ℚ) ^ d) : ℤ) : ℚ) / (10 : ℚ) ^ d

/-- One entry of the `sensors` ordered dictionary. -/
structure SensorCfg where
  sensor_type : String
  name : String
  is_connected : Bool
  is_ref : Bool
  i2c : Nat
  accuracy : Nat
deriving DecidableEq

/-- A bus exchange command issued by the polling cycle: `Cmd.R` is the
read command `"R"`, `Cmd.T v` is the compensation command
`"T," + str(v)`. -/
inductive Cmd
  | R : Cmd
  | T : ℚ → Cmd
deriving DecidableEq

/-- The device environment: the raw frame a device at a given address
returns when queried with a given command. -/
abbrev Env := Nat → Cmd → List Nat

/-- Embedding of the loop body of `read_sensors` (lines 235-268) over
the remaining sensor list, threading `ref_temp`.  Each connected
temperature sensor is queried with `"R"`; its parsed, rounded reading
is appended and becomes `ref_temp` when it is the reference sensor.
Each connected non-temperature sensor first receives the compensation
command `"T,<ref_temp>"` (its reply is discarded), then is queried with
`"R"`.  `float()` applied to a non-numeric response raises, which
aborts the whole cycle: modelled by `Except.error ()` carrying no
readings.  The second component is the trace of bus exchanges, in
program order, up to the abort if one happens. -/
def runCycle (env : Env) : List SensorCfg → ℚ →
    Except Unit (List (String × ℚ)) × List (Nat × Cmd)
  | [], _ => (Except.ok [], [])
  | s :: rest, ref_temp =>
    if s.is_connected = true then
      if s.sensor_type = "atlas_scientific_temp" then
        match parseFloat (atlasRead (env s.i2c Cmd.R)) with
        | none => (Except.error (), [(s.i2c, Cmd.R)])
        | some v =>
          let sensor_reading := pyRound v s.accuracy
          let new_ref := if s.is_ref = true then sensor_reading else ref_temp
          let res := runCycle env rest new_ref
          (res.1.map (fun l => (s.name, sensor_reading) :: l),
            (s.i2c, Cmd.R) :: res.2)
      else
        let _comp := atlasRead (env s.i2c (Cmd.T ref_temp))
        match parseFloat (atlasRead (env s.i2c Cmd.R)) with
        | none => (Except.error (), [(s.i2c, Cmd.T ref_temp), (s.i2c, Cmd.R)])
        | some v =>
          let sensor_reading :=
            if s.sensor_type = "atlas_scientific_ec" then pyRound v s.accuracy
            else pyRound v s.accuracy
          let res := runCycle env rest ref_temp
          (res.1.map (fun l => (s.name, sensor_reading) :: l),
            (s.i2c, Cmd.T ref_temp) :: (s.i2c, Cmd.R) :: res.2)
    else runCycle env rest ref_temp

/-- Embedding of `read_sensors`: run one polling cycle starting from
the fallback reference temperature `ref_temp = 25`. -/
def read_sensors (env : Env) (sensors : List SensorCfg) :
    Except Unit (List (String × ℚ)) × List (Nat × Cmd) :=
  runCycle env sensors 25

/-- The alert configuration constants of the source (bounds per metric
and `email_delay`). -/
structure AlertCfg where
  temp_min : ℚ
  temp_max : ℚ
  ph_min : ℚ
  ph_max : ℚ
  sal_min : ℚ
  sal_max : ℚ
  email_delay : ℚ
deriving DecidableEq

/-- The concrete configuration of the source (lines 391-397). -/
def srcCfg : AlertCfg :=
  { temp_min := 24, temp_max := 28, ph_min := 7.6, ph_max := 8.8,
    sal_min := 30, sal_max := 37, email_delay := 21600 }

/-- An emitted alert event. -/
inductive Alert
  | temp : ℚ → Alert
  | ph : ℚ → Alert
  | salinity : ℚ → Alert
deriving DecidableEq

/-- The temperature check of `notify` (lines 276-285): if the reading
is out of bounds and the gate (`email_time`) is open, emit one alert
and advance the gate by `email_delay`. -/
def notifyTemp (cfg : AlertCfg) (x1 now gate : ℚ) : List Alert × ℚ :=
  if x1 < cfg.temp_min ∨ x1 > cfg.temp_max then
    if now ≥ gate then ([Alert.temp x1], now + cfg.email_delay) else ([], gate)
  else ([], gate)

/-- The pH check of `notify` (lines 287-294). -/
def notifyPh (cfg : AlertCfg) (x2 now gate : ℚ) : List Alert × ℚ :=
  if x2 < cfg.ph_min ∨ x2 > cfg.ph_max then
    if now ≥ gate then ([Alert.ph x2], now + cfg.email_delay) else ([], gate)
  else ([], gate)

/-- The salinity check of `notify` (lines 296-307), including the
`else: email_time = datetime.now()` branch that re-arms the shared gate
whenever salinity is in bounds. -/
def notifySal (cfg : AlertCfg) (x3 now gate : ℚ) : List Alert × ℚ :=
  if x3 < cfg.sal_min ∨ x3 > cfg.sal_max then
    if now ≥ gate then ([Alert.salinity x3], now + cfg.email_delay)
    else ([], gate)
  else ([], now)

/-- Embedding of one `notify` pass (lines 271-309) over the latest
stored row `(x1, x2, x3)` = (temperature, pH, salinity), evaluated at
timestamp `now` with the shared cooldown gate `gate` (`email_time`).
Returns the emitted alerts in program order and the final gate. -/
def notifyPass (cfg : AlertCfg) (x1 x2 x3 now gate : ℚ) : List Alert × ℚ :=
  let r1 := notifyTemp cfg x1 now gate
  let r2 := notifyPh cfg x2 now r1.2
  let r3 := notifySal cfg x3 now r2.2
  (r1.1 ++ r2.1 ++ r3.1, r3.2)

/-- The three alert metrics. -/
inductive Metric
  | temp : Metric
  | ph : Metric
  | salinity : Metric
deriving DecidableEq

/-- The metric's reading in the row `(x1, x2, x3)` is out of its
configured bounds. -/
def metricOut (cfg : AlertCfg) (m : Metric) (x1 x2 x3 : ℚ) : Prop :=
  match m with
  | Metric.temp => x1 < cfg.temp_min ∨ x1 > cfg.temp_max
  | Metric.ph => x2 < cfg.ph_min ∨ x2 > cfg.ph_max
  | Metric.salinity => x3 < cfg.sal_min ∨ x3 > cfg.sal_max

instance {e a : Type} [DecidableEq e] [DecidableEq a] : DecidableEq (Except e a) :=
  fun x y =>
    match x, y with
    | Except.ok u, Except.ok v =>
      if h : u = v then Decidable.isTrue (by rw [h]) else Decidable.isFalse (by simp [h])
    | Except.error u, Except.error v =>
      if h : u = v then Decidable.isTrue (by rw [h]) else Decidable.isFalse (by simp [h])
    | Except.ok _, Except.error _ => Decidable.isFalse (by simp)
    | Except.error _, Except.ok _ => Decidable.isFalse (by simp)

/-- The shipped reference temperature sensor (`atlas_sensor_1`). -/
def tempSensor : SensorCfg :=
  { sensor_type := "atlas_scientific_temp", name := "Temp",
    is_connected := true, is_ref := true, i2c := 102, accuracy := 2 }

/-- The shipped pH sensor (`atlas_sensor_2`). -/
def phSensor : SensorCfg :=
  { sensor_type := "atlas_scientific", name := "pH",
    is_connected := true, is_ref := false, i2c := 99, accuracy := 2 }

/-- A device environment where every probe answers successfully: the
temperature probe at address 102 answers `"26.5"`, every other probe
answers `"8.1"`. -/
def okEnv : Env := fun a _ =>
  if a = 102 then [1, 50, 54, 46, 53] else [1, 56, 46, 49]

/-- A device environment where the probe at address 102 answers with a
protocol error (status byte 2) and every other probe answers `"8.1"`
successfully. -/
def errEnv : Env := fun a _ =>
  if a = 102 then [2, 0, 0] else [1, 56, 46, 49]

/-- A device environment answering every compensation (`T,...`)
exchange with a protocol-error frame (status byte 2) and every read
(`R`) with `"8.1"`. -/
def errCompEnv : Env := fun _ c =>
  match c with
  | Cmd.T _ => [2, 0, 0]
  | Cmd.R => [1, 56, 46, 49]

/-- A device environment answering every exchange with `"8.1"`. -/
def flatEnv : Env := fun _ _ => [1, 56, 46, 49]

/-- A registry with the reference temperature sensor first, then the
pH sensor — the shipped ordering. -/
def orderedSensors : List SensorCfg := [tempSensor, phSensor]

/-- A registry with the pH sensor placed before the reference
temperature sensor. -/
def mixedSensors : List SensorCfg := [phSensor, tempSensor]

/-- A registry containing only the pH sensor: no connected temperature
sensor carries the reference flag. -/
def phOnly : List SensorCfg := [phSensor]

/-! ### Helper lemmas (shared) -/

theorem strStarts_sleep_not_r (u : String) (h : strStarts u "SLEEP" = true) :
    strStarts u "R" = false ∧ strStarts u "CAL" = false := by
  obtain ⟨l⟩ := u
  cases l with
  | nil => simp [strStarts, List.isPrefixOf] at h
  | cons c cs =>
    simp only [strStarts, List.isPrefixOf, Bool.and_eq_true, beq_iff_eq] at h ⊢
    obtain ⟨rfl, -⟩ := h
    constructor <;> simp

set_option maxRecDepth 10000 in
theorem maskMSB_eq_land (b : Nat) (h : b < 256) : maskMSB b = Nat.land b 0x7F := by
  revert b
  decide

theorem atlasRead_success (payload : List Nat) (h : ∀ b ∈ payload, b < 256) :
    atlasRead (1 :: payload) = specDecodePayload payload := by
  have hmap : payload.map (fun x => Char.ofNat (maskMSB x)) =
      payload.map (fun x => Char.ofNat (Nat.land x 0x7F)) := by
    apply List.map_congr_left
    intro b hb
    rw [maskMSB_eq_land b (h b hb)]
  simp only [atlasRead, specDecodePayload, eq_self_iff_true, if_true, hmap]

theorem parseFloat_error_string (t : String) : parseFloat ("Error " ++ t) = none := by
  obtain ⟨l⟩ := t
  show parseFloat ⟨'E' :: ('r' :: 'r' :: 'o' :: 'r' :: ' ' :: l)⟩ = none
  simp [parseFloat, parseUnsigned, List.takeWhile]

theorem notifyPass_quiet (cfg : AlertCfg) (x1 x2 x3 now gate : ℚ) (h : now < gate) :
    (notifyPass cfg x1 x2 x3 now gate).1 = [] := by
  simp only [notifyPass, notifyTemp, notifyPh, notifySal]
  split_ifs <;> simp_all <;> linarith

theorem notifyPass_fires (cfg : AlertCfg) (m : Metric) (x1 x2 x3 now gate : ℚ)
    (hm : metricOut cfg m x1 x2 x3) (hsal : x3 < cfg.sal_min ∨ x3 > cfg.sal_max)
    (hg : gate ≤ now) :
    (notifyPass cfg x1 x2 x3 now gate).1 ≠ [] ∧
    (notifyPass cfg x1 x2 x3 now gate).2 = now + cfg.email_delay := by
  cases m <;>
    (simp only [metricOut] at hm
     simp only [notifyPass, notifyTemp, notifyPh, notifySal]
     split_ifs <;> simp_all)

theorem runCycle_T_value (env : Env) :
    ∀ (l : List SensorCfg) (r : ℚ),
      (∀ s ∈ l, s.is_connected = true → s.sensor_type = "atlas_scientific_temp" →
        s.is_ref = false) →
      ∀ a v, (a, Cmd.T v) ∈ (runCycle env l r).2 → v = r := by
  intro l
  induction l with
  | nil =>
    intro r _ a v hv
    simp [runCycle] at hv
  | cons s rest ih =>
    intro r h a v hv
    have hs := h s (List.mem_cons_self s rest)
    have hrest := fun x hx => h x (List.mem_cons_of_mem s hx)
    by_cases hc : s.is_connected = true
    · by_cases ht : s.sensor_type = "atlas_scientific_temp"
      · have href : s.is_ref = false := hs hc ht
        rcases hp : parseFloat (atlasRead (env s.i2c Cmd.R)) with _ | v2
        · simp [runCycle, hc, ht, hp] at hv
        · simp [runCycle, hc, ht, hp, href] at hv
          exact ih r hrest a v hv
      · rcases hp : parseFloat (atlasRead (env s.i2c Cmd.R)) with _ | v2
        · simp [runCycle, hc, ht, hp] at hv
          exact hv.2
        · simp [runCycle, hc, ht, hp] at hv
          rcases hv with h1 | h2
          · exact h1.2
          · exact ih r hrest a v h2
    · simp [runCycle, hc] at hv
      exact ih r hrest a v hv

theorem runCycle_comp_adjacent (env : Env) :
    ∀ (l : List SensorCfg) (r : ℚ) (i a : Nat) (v : ℚ),
      ((runCycle env l r).2)[i]? = some (a, Cmd.T v) →
      ((runCycle env l r).2)[i + 1]? = some (a, Cmd.R) := by
  intro l
  induction l with
  | nil =>
    intro r i a v h
    simp [runCycle] at h
  | cons s rest ih =>
    intro r i a v h
    by_cases hc : s.is_connected = true
    · by_cases ht : s.sensor_type = "atlas_scientific_temp"
      · rcases hp : parseFloat (atlasRead (env s.i2c Cmd.R)) with _ | v2
        · simp [runCycle, hc, ht, hp] at h ⊢
          cases i <;> simp_all
        · cases i with
          | zero => simp [runCycle, hc, ht, hp] at h
          | succ n =>
            simp [runCycle, hc, ht, hp] at h ⊢
            exact ih _ n a v h
      · rcases hp : parseFloat (atlasRead (env s.i2c Cmd.R)) with _ | v2
        · cases i with
          | zero =>
            simp [runCycle, hc, ht, hp] at h ⊢
            simp_all
          | succ n =>
            cases n <;> simp [runCycle, hc, ht, hp] at h ⊢
        · cases i with
          | zero =>
            simp [runCycle, hc, ht, hp] at h ⊢
            simp_all
          | succ n =>
            cases n with
            | zero => simp [runCycle, hc, ht, hp] at h
            | succ m =>
              simp [runCycle, hc, ht, hp] at h ⊢
              exact ih _ m a v h
    · simp [runCycle, hc] at h ⊢
      exact ih _ i a v h

theorem runCycle_env_agree (env1 env2 : Env)
    (h : ∀ a, env1 a Cmd.R = env2 a Cmd.R) :
    ∀ (l : List SensorCfg) (r : ℚ), runCycle env1 l r = runCycle env2 l r := by
  intro l
  induction l with
  | nil => intro r; rfl
  | cons s rest ih =>
    intro r
    simp only [runCycle, h, ih]

theorem runCycle_abort (env : Env) (r : ℚ) (s : SensorCfg) (rest : List SensorCfg)
    (hc : s.is_connected = true)
    (hp : parseFloat (atlasRead (env s.i2c Cmd.R)) = none) :
    runCycle env (s :: rest) r = runCycle env [s] r ∧
    (runCycle env (s :: rest) r).1 = Except.error () := by
  by_cases ht : s.sensor_type = "atlas_scientific_temp" <;>
    simp [runCycle, hc, ht, hp]

theorem runCycle_ref_reading (env : Env) (sStar : SensorCfg) (vStar : ℚ)
    (hcS : sStar.is_connected = true)
    (htS : sStar.sensor_type = "atlas_scientific_temp")
    (hrefS : sStar.is_ref = true)
    (hpS : parseFloat (atlasRead (env sStar.i2c Cmd.R)) = some vStar) :
    ∀ (la tail : List SensorCfg) (r : ℚ),
      (∀ s ∈ la, s.is_connected = true → s.sensor_type = "atlas_scientific_temp") →
      (∀ s ∈ tail, s.is_connected = true →
        s.sensor_type = "atlas_scientific_temp" → s.is_ref = false) →
      ∀ a v, (a, Cmd.T v) ∈ (runCycle env (la ++ sStar :: tail) r).2 →
        v = pyRound vStar sStar.accuracy := by
  intro la
  induction la with
  | nil =>
    intro tail r _ htail a v hv
    simp [runCycle, hcS, htS, hpS, hrefS] at hv
    exact runCycle_T_value env tail _ htail a v hv
  | cons s la2 ih =>
    intro tail r hla htail a v hv
    have hs := hla s (List.mem_cons_self s la2)
    have hla2 := fun x hx => hla x (List.mem_cons_of_mem s hx)
    by_cases hc : s.is_connected = true
    · have ht : s.sensor_type = "atlas_scientific_temp" := hs hc
      rcases hp : parseFloat (atlasRead (env s.i2c Cmd.R)) with _ | v2
      · simp [runCycle, hc, ht, hp] at hv
      · simp [runCycle, hc, ht, hp] at hv
        exact ih tail _ hla2 htail a v hv
    · simp [runCycle, hc] at hv
      exact ih tail _ hla2 htail a v hv

/-! ### Claims -/

section ClaimSection

attribute [local semireducible] Rat.add Rat.sub Rat.mul Rat.inv Rat.ofScientific

set_option maxRecDepth 100000

/-- C1 counterexample: in a cycle over the shipped registry order
(reference temperature probe at address 102, then the pH probe at 99),
a protocol error from the temperature probe (status byte 2, decoded to
`"Error 2"`, which `float()` cannot parse) aborts the whole cycle: the
result carries no ReadingSet at all and the connected pH probe is never
queried, contradicting the claim that every other connected probe's
Reading still appears. -/
theorem probe_failure_aborts_counterexample :
    read_sensors errEnv orderedSensors = (Except.error (), [(102, Cmd.R)]) := by
  decide

/-- C1 (amended): the failure of a single probe's query (a non-numeric
response, covering both a protocol-error status byte and a decode
error) aborts the polling cycle at that probe: the remaining
descriptors are never visited (the cycle behaves as if the registry
ended at the failing probe) and no ReadingSet is produced. -/
theorem probe_failure_aborts_cycle (env : Env) (r : ℚ) (s : SensorCfg)
    (rest : List SensorCfg) (hc : s.is_connected = true)
    (hp : parseFloat (atlasRead (env s.i2c Cmd.R)) = none) :
    runCycle env (s :: rest) r = runCycle env [s] r ∧
    (runCycle env (s :: rest) r).1 = Except.error () :=
  runCycle_abort env r s rest hc hp

/-- C1 amended witness at the concrete failing registry. -/
theorem probe_failure_aborts_cycle_witness :
    runCycle errEnv (tempSensor :: [phSensor]) 25 = runCycle errEnv [tempSensor] 25 ∧
    (runCycle errEnv (tempSensor :: [phSensor]) 25).1 = Except.error () :=
  probe_failure_aborts_cycle errEnv 25 tempSensor [phSensor] rfl (by decide)

/-- C2 counterexample: with the source constants, the temperature
reading 30 is out of bounds at two consecutive evaluations `t0 = 0` and
`t1 = 100` with `t1 - t0 < email_delay = 21600`, yet because the
salinity reading 33 is in bounds the `else` branch re-arms the shared
gate at `t0`, and the evaluation at `t1` emits an AlertEvent again —
contradicting "only the evaluation at t0 emits an AlertEvent". -/
theorem alert_cooldown_counterexample :
    notifyPass srcCfg 30 8 33 0 0 = ([Alert.temp 30], 0) ∧
    (notifyPass srcCfg 30 8 33 100 (notifyPass srcCfg 30 8 33 0 0).2).1 =
      [Alert.temp 30] ∧
    (100 : ℚ) - 0 < srcCfg.email_delay ∧ (30 : ℚ) > srcCfg.temp_max := by
  exact ⟨by decide, by decide, by decide, by decide⟩

/-- C2 (amended): given two consecutive evaluations at `t0` and `t1`
with the metric out of bounds both times, `t1 - t0 < email_delay`, the
gate open at `t0`, and additionally the salinity reading out of bounds
in the `t0` row (so the in-bounds salinity `else` branch does not
re-arm the shared gate), only the evaluation at `t0` emits an
AlertEvent: the evaluation at `t1` emits none. -/
theorem alert_cooldown_amended (cfg : AlertCfg) (m : Metric)
    (x1 x2 x3 y1 y2 y3 t0 t1 g0 : ℚ)
    (hm0 : metricOut cfg m x1 x2 x3) (_hm1 : metricOut cfg m y1 y2 y3)
    (hsal0 : x3 < cfg.sal_min ∨ x3 > cfg.sal_max)
    (hg : g0 ≤ t0) (_ht : t0 ≤ t1) (hlt : t1 - t0 < cfg.email_delay) :
    (notifyPass cfg x1 x2 x3 t0 g0).1 ≠ [] ∧
    (notifyPass cfg y1 y2 y3 t1 (notifyPass cfg x1 x2 x3 t0 g0).2).1 = [] := by
  obtain ⟨hne, hgate⟩ := notifyPass_fires cfg m x1 x2 x3 t0 g0 hm0 hsal0 hg
  refine ⟨hne, ?_⟩
  rw [hgate]
  exact notifyPass_quiet cfg y1 y2 y3 t1 (t0 + cfg.email_delay) (by linarith)

/-- C2 amended witness: temperature 30 and salinity 40 out of bounds at
both `t0 = 0` and `t1 = 100`. -/
theorem alert_cooldown_amended_witness :
    (notifyPass srcCfg 30 8 40 0 0).1 ≠ [] ∧
    (notifyPass srcCfg 30 8 40 100 (notifyPass srcCfg 30 8 40 0 0).2).1 = [] :=
  alert_cooldown_amended srcCfg Metric.temp 30 8 40 30 8 40 0 100 0
    (Or.inr (by decide)) (Or.inr (by decide)) (Or.inr (by decide))
    (by decide) (by decide) (by decide)

/-- C3 counterexample: in a registry where the connected pH probe
precedes the connected reference temperature probe, the cycle processes
the pH probe first (the trace starts with its compensation and read,
before the temperature probe's read), and its compensation command
carries the fallback 25, not the reference probe's same-cycle reading
26.5 — contradicting "regardless of the registry ordering". -/
theorem temp_processed_first_counterexample :
    read_sensors okEnv mixedSensors =
      (Except.ok [("pH", 81/10), ("Temp", 53/2)],
        [(99, Cmd.T 25), (99, Cmd.R), (102, Cmd.R)]) ∧
    (25 : ℚ) ≠ 53/2 := by
  exact ⟨by decide, by decide⟩

/-- C3 (amended): descriptors are processed in a single pass in
registry order, not temperature-first; when every connected descriptor
before the designated reference probe is a Temperature descriptor, the
reference probe is connected with its response parsing to `vStar`, and
no connected Temperature descriptor after it carries the reference
flag, every compensation command of the cycle carries the reference
probe's same-cycle rounded reading. -/
theorem compensation_uses_ref_reading_amended (env : Env) (sStar : SensorCfg)
    (vStar : ℚ) (la tail : List SensorCfg)
    (hcS : sStar.is_connected = true)
    (htS : sStar.sensor_type = "atlas_scientific_temp")
    (hrefS : sStar.is_ref = true)
    (hpS : parseFloat (atlasRead (env sStar.i2c Cmd.R)) = some vStar)
    (hla : ∀ s ∈ la, s.is_connected = true → s.sensor_type = "atlas_scientific_temp")
    (htail : ∀ s ∈ tail, s.is_connected = true →
      s.sensor_type = "atlas_scientific_temp" → s.is_ref = false) :
    ∀ a v, (a, Cmd.T v) ∈ (read_sensors env (la ++ sStar :: tail)).2 →
      v = pyRound vStar sStar.accuracy := by
  intro a v hv
  exact runCycle_ref_reading env sStar vStar hcS htS hrefS hpS la tail 25 hla htail a v hv

/-- C3 amended witness: reference temperature probe first (reads 26.5),
then the pH probe, whose compensation command carries 26.5. -/
theorem compensation_uses_ref_reading_amended_witness :
    ((99, Cmd.T ((53 : ℚ)/2)) ∈ (read_sensors okEnv ([] ++ tempSensor :: [phSensor])).2) ∧
    (53 : ℚ)/2 = pyRound (53/2) tempSensor.accuracy :=
  ⟨by decide,
   compensation_uses_ref_reading_amended okEnv tempSensor (53/2) [] [phSensor]
     rfl rfl rfl (by decide) (by decide) (by decide) 99 (53/2) (by decide)⟩

/-- C4: `query` classifies the command case-insensitively by its
leading characters: commands beginning with `R` or `CAL` wait the long
settle delay (`long_timeout` = 1.5 time-units) before reading; commands
beginning with `SLEEP` return the sleeping sentinel immediately and
never perform a read (such a command can never also begin with `R` or
`CAL`); all other commands wait the short delay (`short_timeout` = 0.5
time-units) before reading. -/
theorem query_classification (cmd : String) (frame : List Nat) :
    (strStarts (strUpper cmd) "R" = true ∨ strStarts (strUpper cmd) "CAL" = true →
      atlasQuery cmd frame = QueryOutcome.reply long_timeout (atlasRead frame)) ∧
    (strStarts (strUpper cmd) "SLEEP" = true → atlasQuery cmd frame = QueryOutcome.sleep) ∧
    (strStarts (strUpper cmd) "R" = false → strStarts (strUpper cmd) "CAL" = false →
      strStarts (strUpper cmd) "SLEEP" = false →
      atlasQuery cmd frame = QueryOutcome.reply short_timeout (atlasRead frame)) ∧
    long_timeout = 3/2 ∧ short_timeout = 1/2 := by
  refine ⟨?_, ?_, ?_, rfl, rfl⟩
  · intro h
    rcases h with h | h <;> simp [atlasQuery, h]
  · intro h
    obtain ⟨h1, h2⟩ := strStarts_sleep_not_r (strUpper cmd) h
    simp [atlasQuery, h, h1, h2]
  · intro h1 h2 h3
    simp [atlasQuery, h1, h2, h3]

/-- C4 witness at the three command shapes the cycle and the claim use. -/
theorem query_classification_witness :
    atlasQuery "R" [1, 70, 0] = QueryOutcome.reply long_timeout (atlasRead [1, 70, 0]) ∧
    atlasQuery "Sleep" [1, 70, 0] = QueryOutcome.sleep ∧
    atlasQuery "T,25.0" [1, 70, 0] = QueryOutcome.reply short_timeout (atlasRead [1, 70, 0]) :=
  ⟨(query_classification "R" [1, 70, 0]).1 (Or.inl (by decide)),
   (query_classification "Sleep" [1, 70, 0]).2.1 (by decide),
   (query_classification "T,25.0" [1, 70, 0]).2.2.1 (by decide) (by decide) (by decide)⟩

/-- C5: for every status-1 frame over byte-valued payloads, the decoded
result is the payload with bit 7 cleared on every byte (`x & 0x7F`),
read as ASCII and truncated at the first null byte (the spec-side
`specDecodePayload`); in particular the payload `[0xC6, 0xC5, 0x00, ...]`
decodes to `"FE"`. -/
theorem read_success_decode :
    (∀ payload : List Nat, (∀ b ∈ payload, b < 256) →
      atlasRead (1 :: payload) = specDecodePayload payload) ∧
    atlasRead (1 :: [0xC6, 0xC5, 0, 0, 0]) = "FE" :=
  ⟨atlasRead_success, by decide⟩

/-- C5 witness at the concrete payload of the claim. -/
theorem read_success_decode_witness :
    atlasRead (1 :: [0xC6, 0xC5, 0, 0, 0]) = specDecodePayload [0xC6, 0xC5, 0, 0, 0] :=
  read_success_decode.1 [0xC6, 0xC5, 0, 0, 0] (by decide)

/-- C6: every frame whose status byte differs from 1 decodes to the
error result `"Error <status>"` carrying the numeric status code; that
result can never be parsed as a number (`parseFloat` rejects it), so no
Reading is produced for that probe — concretely, status byte 2 yields
`"Error 2"`, and a cycle in which the probe answers with status 2
produces no Reading (the cycle result is the error, not a ReadingSet
containing that probe). -/
theorem read_error_status :
    (∀ (st : Nat) (payload : List Nat), st ≠ 1 →
      atlasRead (st :: payload) = "Error " ++ toString st) ∧
    (∀ t : String, parseFloat ("Error " ++ t) = none) ∧
    atlasRead (2 :: [0, 0]) = "Error 2" ∧
    (read_sensors errEnv [tempSensor]).1 = Except.error () := by
  refine ⟨?_, parseFloat_error_string, by decide, by decide⟩
  intro st payload h
  simp [atlasRead, h]

/-- C6 witness at status byte 3. -/
theorem read_error_status_witness :
    atlasRead (3 :: [5, 6]) = "Error " ++ toString 3 :=
  read_error_status.1 3 [5, 6] (by decide)

/-- C7: when no connected Temperature descriptor carries the reference
flag, the reference temperature stays at the fallback 25 for the entire
cycle: every compensation command in the cycle's trace carries the
value 25 (rendered `"T,25"`). -/
theorem fallback_reference_temperature (env : Env) (sensors : List SensorCfg)
    (h : ∀ s ∈ sensors, s.is_connected = true →
      s.sensor_type = "atlas_scientific_temp" → s.is_ref = false) :
    ∀ a v, (a, Cmd.T v) ∈ (read_sensors env sensors).2 → v = 25 :=
  fun a v hv => runCycle_T_value env sensors 25 h a v hv

/-- C7 witness: the pH-only registry has no reference probe and its
compensation command carries 25. -/
theorem fallback_reference_temperature_witness :
    ((99, Cmd.T (25 : ℚ)) ∈ (read_sensors flatEnv phOnly).2) ∧ (25 : ℚ) = 25 :=
  ⟨by decide, fallback_reference_temperature flatEnv phOnly (by decide) 99 25 (by decide)⟩

/-- C8: in every cycle trace, a compensation exchange at position `i`
is immediately followed, at position `i + 1`, by the read exchange of
the same device address — no other bus exchange to any descriptor
occurs between a compensation command and its read. -/
theorem compensation_immediately_precedes_read (env : Env)
    (sensors : List SensorCfg) (i a : Nat) (v : ℚ)
    (h : ((read_sensors env sensors).2)[i]? = some (a, Cmd.T v)) :
    ((read_sensors env sensors).2)[i + 1]? = some (a, Cmd.R) :=
  runCycle_comp_adjacent env sensors 25 i a v h

/-- C8 witness on the mixed registry's trace. -/
theorem compensation_immediately_precedes_read_witness :
    ((read_sensors okEnv mixedSensors).2)[0]? = some (99, Cmd.T 25) ∧
    ((read_sensors okEnv mixedSensors).2)[1]? = some (99, Cmd.R) :=
  ⟨by decide,
   compensation_immediately_precedes_read okEnv mixedSensors 0 99 25 (by decide)⟩

/-- C9: in one alert-evaluation pass with a strictly positive cooldown
duration, at most one AlertEvent is emitted: the first emission
advances the shared gate to `now + email_delay > now`, suppressing
every later metric's alert in the same pass. -/
theorem single_alert_per_pass (cfg : AlertCfg) (x1 x2 x3 now gate : ℚ)
    (hd : 0 < cfg.email_delay) :
    ((notifyPass cfg x1 x2 x3 now gate).1).length ≤ 1 := by
  simp only [notifyPass, notifyTemp, notifyPh, notifySal]
  split_ifs <;> simp_all <;> linarith

/-- C9 witness: temperature 30 and salinity 40 both out of bounds, yet
one alert. -/
theorem single_alert_per_pass_witness :
    ((notifyPass srcCfg 30 8 40 0 0).1).length ≤ 1 :=
  single_alert_per_pass srcCfg 30 8 40 0 0 (by decide)

/-- C10: the reply to a compensation command is discarded unexamined —
two environments that agree on every device's reply to the read command
`R` produce identical cycles (identical readings, result and trace),
whatever frames (including error frames) the devices return to `T,...`
commands; so an error status on the compensation exchange neither
raises an error nor alters the immediately following read. -/
theorem compensation_reply_discarded (env1 env2 : Env)
    (sensors : List SensorCfg) (h : ∀ a, env1 a Cmd.R = env2 a Cmd.R) :
    read_sensors env1 sensors = read_sensors env2 sensors :=
  runCycle_env_agree env1 env2 h sensors 25

/-- C10 witness: an environment answering every compensation exchange
with an error frame (status byte 2) yields the same cycle as one
answering it successfully, and the pH reading is still appended. -/
theorem compensation_reply_discarded_witness :
    read_sensors errCompEnv phOnly = read_sensors flatEnv phOnly ∧
    (read_sensors errCompEnv phOnly).1 = Except.ok [("pH", 81/10)] ∧
    (errCompEnv 99 (Cmd.T 25))[0]? = some 2 :=
  ⟨compensation_reply_discarded errCompEnv flatEnv phOnly (fun _ => rfl),
   by decide, by decide⟩

end ClaimSection
